import Mathlib

/-!
Shallow embedding of the nutrition app's inference pipeline
(`src/food/app.py`) and of the crawler's numeric-field cleaner
(`src/food/spiders/food_scraper.py`).

Conventions:
* Python real arithmetic (floats) is modelled exactly by `ℚ`.
* The two opaque scoring services (`model_reg`, `model_class`) are
  parameters: the regressor is a function from its 4-field feature row
  to a scalar, the classifier a pair of functions (label, probability
  of class 1) from its 10-field feature row.
* Fallible paths are explicit: `analyze_health`'s Python `(None, None)`
  sentinel becomes `(none, none)`; a Python exception in `clean_value`
  becomes the `CleanResult.raised` constructor.
-/

/-- Feature row for the calorie regressor, keys as in `predict_calories`:
`Fat, Protein, Carbohydrate, Fiber`. -/
structure RegFeatures where
  Fat : ℚ
  Protein : ℚ
  Carbohydrate : ℚ
  Fiber : ℚ
deriving DecidableEq

/-- `predict_calories` (`src/food/app.py` lines 37-46): builds the
regressor feature row and clamps the scalar prediction to a floor of 0. -/
def predict_calories (model_reg : RegFeatures → ℚ)
    (fat carbs protein fiber : ℚ) : ℚ :=
  let data : RegFeatures :=
    { Fat := fat, Protein := protein, Carbohydrate := carbs, Fiber := fiber }
  let prediction := model_reg data
  max 0 prediction

/-- Feature row for the health classifier, keys in the exact order built
in `analyze_health` (`src/food/app.py` lines 58-69). -/
structure ClassFeatures where
  Calorie_Density : ℚ
  Fat_Density : ℚ
  Sugar_Density : ℚ
  Protein_Density : ℚ
  Fiber_Density : ℚ
  Saturated_Fat_Density : ℚ
  Cholesterol_Density : ℚ
  Water_Density : ℚ
  Sugar_Fiber_Ratio : ℚ
  Sodium_Density : ℚ
deriving DecidableEq

/-- The feature row assembled in `analyze_health` for a given predicted
calorie count, total mass and raw nutrients. -/
def buildFeatures (predicted_cals total_mass fat sugar protein fiber
    sodium sat_fat cholesterol water : ℚ) : ClassFeatures :=
  { Calorie_Density := predicted_cals / total_mass
    Fat_Density := fat / total_mass
    Sugar_Density := sugar / total_mass
    Protein_Density := protein / total_mass
    Fiber_Density := fiber / total_mass
    Saturated_Fat_Density := sat_fat / total_mass
    Cholesterol_Density := cholesterol / total_mass
    Water_Density := water / total_mass
    Sugar_Fiber_Ratio := if fiber > 0 then sugar / fiber else 0
    Sodium_Density := sodium / total_mass }

/-- `analyze_health` (`src/food/app.py` lines 48-80). The classifier is
abstract: `predict` is `model_class.predict(data)[0]`, `proba` is
`model_class.predict_proba(data)[0][1]`. Returns the Python pair
`(prediction, prob_healthy)`, with `(none, none)` for zero total mass. -/
def analyze_health (predict : ClassFeatures → ℤ) (proba : ClassFeatures → ℚ)
    (predicted_cals total_mass fat sugar protein fiber sodium sat_fat
     cholesterol water : ℚ) : Option ℤ × Option ℚ :=
  if total_mass = 0 then (none, none)
  else
    let prot_density := protein / total_mass
    let sugar_density := sugar / total_mass
    let data := buildFeatures predicted_cals total_mass fat sugar protein
      fiber sodium sat_fat cholesterol water
    let prediction := predict data
    let prob_healthy := proba data
    if prediction = 0 ∧ prot_density > 0.15 ∧ sugar_density < 0.02 then
      (some 1, some 0.85)
    else
      (some prediction, some prob_healthy)

/-- The fixed activity-multiplier table of `calculate_smart_protein_goal`
(`src/food/app.py` lines 99-105), keys exactly as in the source. -/
def multipliers : List (String × ℚ) :=
  [("Sedentary (Office Job, No Exercise)", 0.8),
   ("Lightly Active (Exercise 1-3 days/week)", 1.2),
   ("Moderately Active (Exercise 3-5 days/week)", 1.5),
   ("Very Active (Hard Exercise 6-7 days/week)", 1.7),
   ("Athlete / Muscle Building (Hypertrophy)", 2.0)]

/-- Python `multipliers.get(activity_level, 1.2)`. -/
def multipliersGet (activity_level : String) : ℚ :=
  (multipliers.lookup activity_level).getD 1.2

/-- `calculate_smart_protein_goal` (`src/food/app.py` lines 87-108):
returns `(calculation_weight * multiplier, bmi)`. -/
def calculate_smart_protein_goal (weight_kg height_cm : ℚ)
    (activity_level : String) : ℚ × ℚ :=
  let height_m := height_cm / 100
  let bmi := weight_kg / height_m ^ 2
  let calculation_weight :=
    if bmi > 30 then
      let ideal_weight := 25 * height_m ^ 2
      ideal_weight + 0.25 * (weight_kg - ideal_weight)
    else
      weight_kg
  (calculation_weight * multipliersGet activity_level, bmi)

/-- The confidence computation of the results section in `main`
(`src/food/app.py` lines 220-230): for a healthy verdict
(`prediction == 1`) `conf_score = prob_healthy`; otherwise
`conf_score = 1 - prob_healthy if prob_healthy is not None else 0.0`.
`none` models a Python `None` `conf_score`. -/
def conf_score (prediction : ℤ) (prob_healthy : Option ℚ) : Option ℚ :=
  if prediction = 1 then prob_healthy
  else
    match prob_healthy with
    | some p => some (1 - p)
    | none => some 0

/-!
Crawler cleaner `clean_value`
(`src/food/spiders/food_scraper.py` lines 63-74).
-/

/-- Outcome of a `clean_value` call: the function returns Python `None`
(`missing`), returns a float (`value`), or an exception escapes it
(`raised`, from `float(...)` raising `ValueError`). -/
inductive CleanResult where
  | raised : CleanResult
  | missing : CleanResult
  | value : ℚ → CleanResult
deriving DecidableEq

/-- Characters removed by Python `str.strip()`; we model the whitespace
characters that can occur in the scraped text (ASCII whitespace and the
no-break space U+00A0). -/
def isPySpace (c : Char) : Bool :=
  c = ' ' || c = Char.ofNat 9 || c = Char.ofNat 10 || c = Char.ofNat 11 ||
  c = Char.ofNat 12 || c = Char.ofNat 13 || c = Char.ofNat 160

/-- Python `value.strip()` on the character list. -/
def pyStrip (s : List Char) : List Char :=
  ((s.dropWhile isPySpace).reverse.dropWhile isPySpace).reverse

/-- A character matched by the regex character class `[\d\.]`. -/
def isNumChar (c : Char) : Bool :=
  c.isDigit || c = '.'

/-- `re.search(r'[\d\.]+', value)`: the leftmost maximal run of
digit-or-dot characters, `none` when no character matches. -/
def firstMatch : List Char → Option (List Char)
  | [] => none
  | c :: rest =>
      if isNumChar c then some (c :: rest.takeWhile isNumChar)
      else firstMatch rest

/-- Numeric value of a digit string (most significant first). -/
def digitsToNat (s : List Char) : ℕ :=
  s.foldl (fun acc c => 10 * acc + (c.toNat - 48)) 0

/-- Python `float(s)` restricted to strings of digits and dots (the only
strings the regex can produce): it succeeds iff there is at most one dot
and at least one digit, and then yields the exact decimal value;
otherwise it raises `ValueError` (`none`). -/
def pyFloat (s : List Char) : Option ℚ :=
  if s.count '.' ≤ 1 ∧ s.any (fun c => c.isDigit) then
    let ip := s.takeWhile (fun c => c ≠ '.')
    let fp := (s.dropWhile (fun c => c ≠ '.')).drop 1
    some ((digitsToNat ip : ℚ) + (digitsToNat fp : ℚ) / 10 ^ fp.length)
  else
    none

/-- `clean_value` (`src/food/spiders/food_scraper.py` lines 63-74):
falsy input (Python `None` or the empty string) gives `missing`; else
the value is stripped, no-break spaces become plain spaces, and the
first digit-or-dot run is fed to `float`, whose failure escapes as an
exception. No regex match gives `missing`. -/
def clean_value (value : Option String) : CleanResult :=
  match value with
  | none => .missing
  | some v =>
    if v.isEmpty then .missing
    else
      let s := pyStrip v.toList
      let s := s.map (fun c => if c = Char.ofNat 160 then ' ' else c)
      match firstMatch s with
      | some m =>
          match pyFloat m with
          | some q => .value q
          | none => .raised
      | none => .missing

/-!
Theorems, one per claim.
-/

/-- C1: for any classifier-invocation with total mass > 0, if the raw
label is unhealthy (class 0), protein/total mass > 0.15 and
sugar/total mass < 0.02, `analyze_health` returns the healthy label
(class 1) with probability-of-healthy forced to exactly 0.85. -/
theorem analyze_health_override_flips
    (predict : ClassFeatures → ℤ) (proba : ClassFeatures → ℚ)
    (predicted_cals total_mass fat sugar protein fiber sodium sat_fat cholesterol water : ℚ)
    (hm : 0 < total_mass)
    (hp : predict (buildFeatures predicted_cals total_mass fat sugar protein fiber
      sodium sat_fat cholesterol water) = 0)
    (hprot : protein / total_mass > 0.15)
    (hsugar : sugar / total_mass < 0.02) :
    analyze_health predict proba predicted_cals total_mass fat sugar protein fiber
      sodium sat_fat cholesterol water = (some 1, some 0.85) := by
  simp only [analyze_health]
  rw [if_neg hm.ne', if_pos ⟨hp, hprot, hsugar⟩]

/-- Witness for C1: mass 1, protein 0.2, sugar 0.01, a classifier whose
raw output is class 0 with probability-of-healthy 0.5. -/
theorem analyze_health_override_flips_witness :
    (0 : ℚ) < 1 ∧
    analyze_health (fun _ => 0) (fun _ => 0.5) 100 1 0 0.01 0.2 0 0 0 0 0.79
      = (some 1, some 0.85) :=
  ⟨by norm_num,
   analyze_health_override_flips (fun _ => 0) (fun _ => 0.5) 100 1 0 0.01 0.2 0 0 0 0 0.79
     (by norm_num) rfl (by norm_num) (by norm_num)⟩

/-- C2: with total mass > 0, every density field of the feature row
assembled for the classifier equals the raw value divided by total mass
(`Calorie_Density` uses the estimated calories), and the sugar/fiber
field is sugar/fiber when fiber > 0 and exactly 0 when fiber = 0. -/
theorem buildFeatures_densities
    (predicted_cals total_mass fat sugar protein fiber sodium sat_fat cholesterol water : ℚ)
    (hm : 0 < total_mass) :
    (buildFeatures predicted_cals total_mass fat sugar protein fiber sodium sat_fat
        cholesterol water).Calorie_Density = predicted_cals / total_mass ∧
    (buildFeatures predicted_cals total_mass fat sugar protein fiber sodium sat_fat
        cholesterol water).Fat_Density = fat / total_mass ∧
    (buildFeatures predicted_cals total_mass fat sugar protein fiber sodium sat_fat
        cholesterol water).Sugar_Density = sugar / total_mass ∧
    (buildFeatures predicted_cals total_mass fat sugar protein fiber sodium sat_fat
        cholesterol water).Protein_Density = protein / total_mass ∧
    (buildFeatures predicted_cals total_mass fat sugar protein fiber sodium sat_fat
        cholesterol water).Fiber_Density = fiber / total_mass ∧
    (buildFeatures predicted_cals total_mass fat sugar protein fiber sodium sat_fat
        cholesterol water).Saturated_Fat_Density = sat_fat / total_mass ∧
    (buildFeatures predicted_cals total_mass fat sugar protein fiber sodium sat_fat
        cholesterol water).Cholesterol_Density = cholesterol / total_mass ∧
    (buildFeatures predicted_cals total_mass fat sugar protein fiber sodium sat_fat
        cholesterol water).Water_Density = water / total_mass ∧
    (buildFeatures predicted_cals total_mass fat sugar protein fiber sodium sat_fat
        cholesterol water).Sodium_Density = sodium / total_mass ∧
    (0 < fiber → (buildFeatures predicted_cals total_mass fat sugar protein fiber sodium
        sat_fat cholesterol water).Sugar_Fiber_Ratio = sugar / fiber) ∧
    (fiber = 0 → (buildFeatures predicted_cals total_mass fat sugar protein fiber sodium
        sat_fat cholesterol water).Sugar_Fiber_Ratio = 0) := by
  refine ⟨rfl, rfl, rfl, rfl, rfl, rfl, rfl, rfl, rfl, fun hf => ?_, fun hf => ?_⟩
  · simp [buildFeatures, hf]
  · simp [buildFeatures, hf]

/-- Witness for C2: concrete nutrient values with total mass 2 and
fiber 5. -/
theorem buildFeatures_densities_witness :
    (0 : ℚ) < 2 ∧
    ((buildFeatures 7 2 1 3 4 5 6 8 9 10).Calorie_Density = 7 / 2 ∧
     (buildFeatures 7 2 1 3 4 5 6 8 9 10).Fat_Density = 1 / 2 ∧
     (buildFeatures 7 2 1 3 4 5 6 8 9 10).Sugar_Density = 3 / 2 ∧
     (buildFeatures 7 2 1 3 4 5 6 8 9 10).Protein_Density = 4 / 2 ∧
     (buildFeatures 7 2 1 3 4 5 6 8 9 10).Fiber_Density = 5 / 2 ∧
     (buildFeatures 7 2 1 3 4 5 6 8 9 10).Saturated_Fat_Density = 8 / 2 ∧
     (buildFeatures 7 2 1 3 4 5 6 8 9 10).Cholesterol_Density = 9 / 2 ∧
     (buildFeatures 7 2 1 3 4 5 6 8 9 10).Water_Density = 10 / 2 ∧
     (buildFeatures 7 2 1 3 4 5 6 8 9 10).Sodium_Density = 6 / 2 ∧
     ((0 : ℚ) < 5 → (buildFeatures 7 2 1 3 4 5 6 8 9 10).Sugar_Fiber_Ratio = 3 / 5) ∧
     ((5 : ℚ) = 0 → (buildFeatures 7 2 1 3 4 5 6 8 9 10).Sugar_Fiber_Ratio = 0)) :=
  ⟨by norm_num, buildFeatures_densities 7 2 1 3 4 5 6 8 9 10 (by norm_num)⟩

/-- C3: with total mass 0, `analyze_health` returns `(none, none)`,
whatever the classifier functions are (so the scorer's value is never
consulted). -/
theorem analyze_health_zero_mass
    (predict : ClassFeatures → ℤ) (proba : ClassFeatures → ℚ)
    (predicted_cals fat sugar protein fiber sodium sat_fat cholesterol water : ℚ) :
    analyze_health predict proba predicted_cals 0 fat sugar protein fiber
      sodium sat_fat cholesterol water = (none, none) := by
  simp [analyze_health]

/-- C4: within the form's bounds, the goal calculator computes
BMI = w/(h/100)^2; above BMI 30 it blends toward the ideal weight
25·(h/100)^2 keeping a quarter of the excess, at or below 30 it uses the
weight unchanged; the goal is that calculation weight times the activity
multiplier. -/
theorem calculate_smart_protein_goal_spec
    (weight_kg height_cm : ℚ) (activity_level : String)
    (hw1 : 30 ≤ weight_kg) (hw2 : weight_kg ≤ 200)
    (hh1 : 100 ≤ height_cm) (hh2 : height_cm ≤ 250) :
    (calculate_smart_protein_goal weight_kg height_cm activity_level).2 =
      weight_kg / (height_cm / 100) ^ 2 ∧
    (weight_kg / (height_cm / 100) ^ 2 > 30 →
      calculate_smart_protein_goal weight_kg height_cm activity_level =
        ((25 * (height_cm / 100) ^ 2 +
            0.25 * (weight_kg - 25 * (height_cm / 100) ^ 2)) *
          multipliersGet activity_level,
         weight_kg / (height_cm / 100) ^ 2)) ∧
    (weight_kg / (height_cm / 100) ^ 2 ≤ 30 →
      calculate_smart_protein_goal weight_kg height_cm activity_level =
        (weight_kg * multipliersGet activity_level,
         weight_kg / (height_cm / 100) ^ 2)) := by
  refine ⟨rfl, fun hb => ?_, fun hb => ?_⟩
  · simp only [calculate_smart_protein_goal]
    rw [if_pos hb]
  · simp only [calculate_smart_protein_goal]
    rw [if_neg (not_lt.mpr hb)]

/-- Witness for C4: the spec's own example, weight 110 kg, height
170 cm. -/
theorem calculate_smart_protein_goal_spec_witness :
    ((30 : ℚ) ≤ 110 ∧ (110 : ℚ) ≤ 200 ∧ (100 : ℚ) ≤ 170 ∧ (170 : ℚ) ≤ 250) ∧
    ((calculate_smart_protein_goal 110 170
        "Moderately Active (Exercise 3-5 days/week)").2 = 110 / (170 / 100) ^ 2 ∧
     ((110 : ℚ) / (170 / 100) ^ 2 > 30 →
       calculate_smart_protein_goal 110 170 "Moderately Active (Exercise 3-5 days/week)" =
         ((25 * ((170 : ℚ) / 100) ^ 2 + 0.25 * (110 - 25 * ((170 : ℚ) / 100) ^ 2)) *
            multipliersGet "Moderately Active (Exercise 3-5 days/week)",
          110 / (170 / 100) ^ 2)) ∧
     ((110 : ℚ) / (170 / 100) ^ 2 ≤ 30 →
       calculate_smart_protein_goal 110 170 "Moderately Active (Exercise 3-5 days/week)" =
         (110 * multipliersGet "Moderately Active (Exercise 3-5 days/week)",
          110 / (170 / 100) ^ 2))) :=
  ⟨by norm_num,
   calculate_smart_protein_goal_spec 110 170 "Moderately Active (Exercise 3-5 days/week)"
     (by norm_num) (by norm_num) (by norm_num) (by norm_num)⟩

/-- C5: in the rendered verdict, an unhealthy final label (class 0)
reports 1 − P(healthy) and a healthy final label (class 1) reports
P(healthy); in particular class 0 with P(healthy) = 0.3 reports 0.7. -/
theorem conf_score_reports_label_probability (p : ℚ) :
    conf_score 0 (some p) = some (1 - p) ∧
    conf_score 1 (some p) = some p ∧
    conf_score 0 (some 0.3) = some 0.7 :=
  ⟨rfl, rfl, by norm_num [conf_score]⟩

/-- C6: `predict_calories` is exactly the regressor's scalar clamped
below at 0, hence never negative — also when the scorer is negative. -/
theorem predict_calories_clamped
    (model_reg : RegFeatures → ℚ) (fat carbs protein fiber : ℚ)
    (hf : 0 ≤ fat) (hc : 0 ≤ carbs) (hp : 0 ≤ protein) (hfi : 0 ≤ fiber) :
    predict_calories model_reg fat carbs protein fiber =
      max 0 (model_reg
        { Fat := fat, Protein := protein, Carbohydrate := carbs, Fiber := fiber }) ∧
    0 ≤ predict_calories model_reg fat carbs protein fiber := by
  refine ⟨rfl, ?_⟩
  simp only [predict_calories]
  exact le_max_left 0 _

/-- Witness for C6: a scorer that always returns −5 on all-zero
nutrients still yields a clamped, non-negative calorie estimate. -/
theorem predict_calories_clamped_witness :
    ((0 : ℚ) ≤ 0 ∧ (0 : ℚ) ≤ 0 ∧ (0 : ℚ) ≤ 0 ∧ (0 : ℚ) ≤ 0) ∧
    (predict_calories (fun _ => -5) 0 0 0 0 =
      max 0 ((fun _ => (-5 : ℚ))
        ({ Fat := 0, Protein := 0, Carbohydrate := 0, Fiber := 0 } : RegFeatures)) ∧
     0 ≤ predict_calories (fun _ => (-5 : ℚ)) 0 0 0 0) :=
  ⟨by norm_num,
   predict_calories_clamped (fun _ => -5) 0 0 0 0 le_rfl le_rfl le_rfl le_rfl⟩

/-- C7: the activity table maps the five fixed levels to 0.8, 1.2, 1.5,
1.7 and 2.0, and any string outside the table gets the default 1.2. -/
theorem multipliersGet_table_and_default (s : String)
    (h : s ∉ ["Sedentary (Office Job, No Exercise)",
      "Lightly Active (Exercise 1-3 days/week)",
      "Moderately Active (Exercise 3-5 days/week)",
      "Very Active (Hard Exercise 6-7 days/week)",
      "Athlete / Muscle Building (Hypertrophy)"]) :
    multipliersGet "Sedentary (Office Job, No Exercise)" = 0.8 ∧
    multipliersGet "Lightly Active (Exercise 1-3 days/week)" = 1.2 ∧
    multipliersGet "Moderately Active (Exercise 3-5 days/week)" = 1.5 ∧
    multipliersGet "Very Active (Hard Exercise 6-7 days/week)" = 1.7 ∧
    multipliersGet "Athlete / Muscle Building (Hypertrophy)" = 2.0 ∧
    multipliersGet s = 1.2 := by
  refine ⟨rfl, rfl, rfl, rfl, rfl, ?_⟩
  simp only [List.mem_cons, not_or] at h
  obtain ⟨h1, h2, h3, h4, h5, -⟩ := h
  simp [multipliersGet, multipliers, List.lookup,
    beq_eq_false_iff_ne.mpr h1, beq_eq_false_iff_ne.mpr h2, beq_eq_false_iff_ne.mpr h3,
    beq_eq_false_iff_ne.mpr h4, beq_eq_false_iff_ne.mpr h5]

/-- Witness for C7: the string "Unknown" is not a table key and gets the
default multiplier 1.2. -/
theorem multipliersGet_table_and_default_witness :
    ("Unknown" : String) ∉ ["Sedentary (Office Job, No Exercise)",
      "Lightly Active (Exercise 1-3 days/week)",
      "Moderately Active (Exercise 3-5 days/week)",
      "Very Active (Hard Exercise 6-7 days/week)",
      "Athlete / Muscle Building (Hypertrophy)"] ∧
    (multipliersGet "Sedentary (Office Job, No Exercise)" = 0.8 ∧
     multipliersGet "Lightly Active (Exercise 1-3 days/week)" = 1.2 ∧
     multipliersGet "Moderately Active (Exercise 3-5 days/week)" = 1.5 ∧
     multipliersGet "Very Active (Hard Exercise 6-7 days/week)" = 1.7 ∧
     multipliersGet "Athlete / Muscle Building (Hypertrophy)" = 2.0 ∧
     multipliersGet "Unknown" = 1.2) :=
  ⟨by decide, multipliersGet_table_and_default "Unknown" (by decide)⟩

/-- C8 counterexample: with the healthy final label (class 1) and an
absent probability, the rendered confidence is not 0.0 — the missing
value is propagated, so the claim fails as stated. -/
theorem conf_score_none_healthy_cex : conf_score 1 none ≠ some 0 := by
  simp [conf_score]

/-- C8 amended: an absent probability defaults the rendered confidence
to 0.0 only for the unhealthy final label (class 0); for the healthy
final label (class 1) the absent value is propagated unchanged. -/
theorem conf_score_none_default :
    conf_score 0 none = some 0 ∧ conf_score 1 none = none :=
  ⟨rfl, rfl⟩

/-- C9: evaluating `clean_value` at the failing input "." — the regex
`[\d\.]+` matches the lone dot, and `float(".")` raises `ValueError`
instead of producing the missing marker the spec requires. -/
theorem clean_value_dot_raises : clean_value (some ".") = CleanResult.raised :=
  rfl

/-- C10: with total mass > 0, when the override conditions do not all
hold — raw label healthy (class 1), or protein density ≤ 0.15, or sugar
density ≥ 0.02 — `analyze_health` returns the raw label and the raw
probability-of-healthy unchanged. -/
theorem analyze_health_no_override
    (predict : ClassFeatures → ℤ) (proba : ClassFeatures → ℚ)
    (predicted_cals total_mass fat sugar protein fiber sodium sat_fat cholesterol water : ℚ)
    (hm : 0 < total_mass)
    (hcase : predict (buildFeatures predicted_cals total_mass fat sugar protein fiber
        sodium sat_fat cholesterol water) = 1 ∨
      protein / total_mass ≤ 0.15 ∨ sugar / total_mass ≥ 0.02) :
    analyze_health predict proba predicted_cals total_mass fat sugar protein fiber
      sodium sat_fat cholesterol water =
      (some (predict (buildFeatures predicted_cals total_mass fat sugar protein fiber
          sodium sat_fat cholesterol water)),
       some (proba (buildFeatures predicted_cals total_mass fat sugar protein fiber
          sodium sat_fat cholesterol water))) := by
  simp only [analyze_health]
  rw [if_neg hm.ne', if_neg]
  rintro ⟨h0, hprot, hsugar⟩
  rcases hcase with h1 | h2 | h3
  · rw [h0] at h1
    exact absurd h1 (by decide)
  · exact absurd hprot (not_lt.mpr h2)
  · exact absurd hsugar (not_lt.mpr h3)

/-- Witness for C10: a classifier that already answers class 1 with
probability 0.3 passes through untouched on a mass-1 input. -/
theorem analyze_health_no_override_witness :
    (0 : ℚ) < 1 ∧
    analyze_health (fun _ => 1) (fun _ => 0.3) 100 1 0 0.01 0.2 0 0 0 0 0.79 =
      (some ((fun _ => (1 : ℤ)) (buildFeatures 100 1 0 0.01 0.2 0 0 0 0 0.79)),
       some ((fun _ => (0.3 : ℚ)) (buildFeatures 100 1 0 0.01 0.2 0 0 0 0 0.79))) :=
  ⟨by norm_num,
   analyze_health_no_override (fun _ => 1) (fun _ => 0.3) 100 1 0 0.01 0.2 0 0 0 0 0.79
     (by norm_num) (Or.inl rfl)⟩
